import Mathlib

/-!
# Formal model of the orbital-sigma Domain-Weighted Anomaly & Confidence Scoring Engine

This file is a shallow embedding, in Lean 4, of the scoring engine of the
`geo-service` package: `anomaly_scoring.py`, `magnitude_scaling.py`,
`confidence_metrics.py` and `weights_loader.py`.  Python floats are modelled
as rationals (`ℚ`) where the code only performs field operations, and as real
numbers (`ℝ`) where transcendental functions (`exp`, `tanh`, `atan`, `log`,
`sqrt`) occur.  Python dicts keyed by strings are modelled as association
lists, and Python's `round(x, n)` (round-half-to-even on the number itself)
is modelled by `roundDec`.

Definitions are translated from the source; theorems at the end of the file
settle the behavioural claims about the engine.
-/

/-! ## Rounding (Python `round(x, n)`) -/

/-- Round to the nearest integer, ties going to the even integer.  This is
the rounding rule of Python's builtin `round`. -/
def roundHalfEven (x : ℚ) : ℤ :=
  if Int.fract x < 1/2 then ⌊x⌋
  else if 1/2 < Int.fract x then ⌊x⌋ + 1
  else if ⌊x⌋ % 2 = 0 then ⌊x⌋ else ⌊x⌋ + 1

/-- Python's `round(x, d)`: round `x` to `d` decimal digits, half to even. -/
def roundDec (d : ℕ) (x : ℚ) : ℚ :=
  (roundHalfEven (x * 10 ^ d) : ℚ) / 10 ^ d

theorem roundHalfEven_mono {x y : ℚ} (h : x ≤ y) :
    roundHalfEven x ≤ roundHalfEven y := by
  have hfl : ⌊x⌋ ≤ ⌊y⌋ := Int.floor_le_floor h
  rcases eq_or_lt_of_le hfl with heq | hlt
  · have hfr : Int.fract x ≤ Int.fract y := by
      unfold Int.fract
      rw [heq]
      linarith
    unfold roundHalfEven
    rw [heq]
    split_ifs <;> first | omega | linarith
  · have h1 : roundHalfEven x ≤ ⌊x⌋ + 1 := by
      unfold roundHalfEven; split_ifs <;> omega
    have h2 : (⌊y⌋ : ℤ) ≤ roundHalfEven y := by
      unfold roundHalfEven; split_ifs <;> omega
    omega

theorem roundDec_mono (d : ℕ) {x y : ℚ} (h : x ≤ y) :
    roundDec d x ≤ roundDec d y := by
  unfold roundDec
  have hp : (0 : ℚ) < 10 ^ d := by positivity
  have := roundHalfEven_mono (mul_le_mul_of_nonneg_right h (le_of_lt hp))
  exact div_le_div_of_nonneg_right (by exact_mod_cast this) hp.le

/-! ## Anomaly scorer (`anomaly_scoring.py`)

The scorer is constructed from a weights configuration (`weights.json`,
supplied at deployment time and not part of the repository).  We therefore
parameterize every operation by an arbitrary configuration value holding,
per domain, the weight vector and the threshold dictionary. -/

/-- The five anomaly severity levels returned by `_determine_anomaly_level`. -/
inductive AnomalyLevel where
  | normal | low | medium | high | critical
  deriving DecidableEq, Repr

/-- A domain's `thresholds` dictionary.  Every key may be absent; the code
reads each with `thresholds.get(key, default)`. -/
structure ThresholdsQ where
  minor_change : Option ℚ
  moderate_change : Option ℚ
  major_change : Option ℚ
  critical_change : Option ℚ
  deriving DecidableEq, Repr

/-- One entry of `config['domains']`: the weight vector (we keep the dict
values, in order) and the thresholds dictionary (an absent `thresholds` key
is the all-`none` record). -/
structure DomainCfg where
  weights : List ℚ
  thresholds : ThresholdsQ
  deriving DecidableEq, Repr

/-- The scorer configuration: `config['domains']` plus the top-level
`config['default']` entry used by `_determine_anomaly_level` as fallback. -/
structure ScorerConfig where
  domains : List (String × DomainCfg)
  defaultCfg : DomainCfg
  deriving DecidableEq, Repr

/-- Body of the per-domain loop of `AnomalyScorer._calculate_domain_multipliers`:
count the weights different from `1.0`, average their absolute values
(`1.0` when there are none) and form `1 + (count/64) * avg * 0.5`. -/
def calcDomainMultiplier (ws : List ℚ) : ℚ :=
  let nonDefault := ws.filter (fun w => w ≠ 1)
  let avgWeight : ℚ :=
    if nonDefault ≠ [] then
      (nonDefault.map (fun w => |w|)).sum / nonDefault.length
    else 1
  let specializationFactor : ℚ := (nonDefault.length : ℚ) / 64
  1 + specializationFactor * avgWeight * (1/2)

/-- The `self.domain_multipliers` dict: every key of `config['domains']`
mapped through `calcDomainMultiplier`, with the `'default'` entry overwritten
by `1.0` at the end. -/
def domainMultipliers (cfg : ScorerConfig) (name : String) : Option ℚ :=
  if name = "default" then some 1
  else (cfg.domains.lookup name).map (fun c => calcDomainMultiplier c.weights)

/-- Domain resolution shared by the scoring entry points:
`if domain is None or domain not in self.domain_multipliers: domain = 'default'`. -/
def resolveDomain (cfg : ScorerConfig) (domain : Option String) : String :=
  match domain with
  | none => "default"
  | some d => if (domainMultipliers cfg d).isSome then d else "default"

/-- The confidence adjustment of `calculate_anomaly_score`:
`{'high': 1.0, 'medium': 0.9, 'low': 0.75}` with default `1.0`, and no
adjustment when the argument is absent or empty (Python truthiness). -/
def confidenceFactor (confidence_level : Option String) : ℚ :=
  match confidence_level with
  | none => 1
  | some s =>
    if s = "" then 1
    else if s = "high" then 1
    else if s = "medium" then 9/10
    else if s = "low" then 3/4
    else 1

/-- The four threshold values effectively used by `_determine_anomaly_level`
for a domain: the domain's `thresholds` dict when the domain is a key of
`config['domains']`, else the top-level default entry's; each key read with
the code's fallback constants `0.02 / 0.05 / 0.10 / 0.15`. -/
def effectiveThresholds (cfg : ScorerConfig) (domain : String) : ℚ × ℚ × ℚ × ℚ :=
  let t := match cfg.domains.lookup domain with
    | some c => c.thresholds
    | none => cfg.defaultCfg.thresholds
  (t.minor_change.getD (1/50), t.moderate_change.getD (1/20),
   t.major_change.getD (1/10), t.critical_change.getD (3/20))

/-- `AnomalyScorer._determine_anomaly_level`: strict `<` comparisons against
the four thresholds, in ascending order. -/
def determineAnomalyLevel (cfg : ScorerConfig) (score : ℚ) (domain : String) :
    AnomalyLevel :=
  let t := effectiveThresholds cfg domain
  if score < t.1 then .normal
  else if score < t.2.1 then .low
  else if score < t.2.2.1 then .medium
  else if score < t.2.2.2 then .high
  else .critical

/-- The fields of the dict returned by `AnomalyScorer.calculate_anomaly_score`
(the human-readable `interpretation` sub-dict is omitted). -/
structure ScoreResult where
  anomaly_score : ℚ
  raw_magnitude : ℚ
  domain : String
  domain_multiplier : ℚ
  confidence_factor : ℚ
  anomaly_level : AnomalyLevel
  requires_attention : Bool
  deriving DecidableEq, Repr

/-- `AnomalyScorer.calculate_anomaly_score`: weighted magnitude, confidence
factor, soft cap at `1.0`, severity classification. -/
def calculate_anomaly_score (cfg : ScorerConfig) (raw_magnitude : ℚ)
    (domain confidence_level : Option String) : ScoreResult :=
  let d := resolveDomain cfg domain
  let m := (domainMultipliers cfg d).getD 1
  let cf := confidenceFactor confidence_level
  let score := min 1 (raw_magnitude * m * cf)
  let lvl := determineAnomalyLevel cfg score d
  { anomaly_score := roundDec 4 score
    raw_magnitude := roundDec 4 raw_magnitude
    domain := d
    domain_multiplier := roundDec 3 m
    confidence_factor := cf
    anomaly_level := lvl
    requires_attention := lvl = .high ∨ lvl = .critical }

/-- One element of the list returned by `AnomalyScorer.batch_score`: the
scoring result with the input's `aoi_id` attached. -/
structure BatchScoreItem where
  aoi_id : String
  result : ScoreResult
  deriving DecidableEq, Repr

/-- `AnomalyScorer.batch_score`: score every `(aoi_id, raw_magnitude, domain)`
tuple, then sort by anomaly score, highest first (Python's stable sort with
`reverse=True`). -/
def batch_score (cfg : ScorerConfig)
    (magnitudes : List (String × ℚ × Option String)) : List BatchScoreItem :=
  let results := magnitudes.map (fun t =>
    { aoi_id := t.1, result := calculate_anomaly_score cfg t.2.1 t.2.2 none })
  results.mergeSort (fun a b => b.result.anomaly_score ≤ a.result.anomaly_score)

/-! ## Magnitude scaler (`magnitude_scaling.py`)

The scaler computes with transcendental functions, so values are modelled
as real numbers.  The scaler object carries mutable state: `self.method`
and the `self.domain_params` dict, which `scale` mutates in place via
`params.update(custom_params)` when custom parameters are supplied.  We
model the object as a value and every method as explicit state passing. -/

/-- The `ScalingMethod` enum. -/
inductive ScalingMethod where
  | SIGMOID | MIN_MAX | TANH | ARCTAN | LOG_SCALE | NONE
  deriving DecidableEq, Repr

/-- One entry of `self.domain_params`: the keys stored for every domain.
(`arctan_scale`, `log_offset` and `log_scale` are never stored, so the
corresponding `params.get` calls always take their defaults.) -/
structure DomainParams where
  sigmoid_k : ℝ
  sigmoid_x0 : ℝ
  min_max_lo : ℝ
  min_max_hi : ℝ
  tanh_scale : ℝ

/-- The custom parameters passed by `batch_scale` in adaptive mode: an
overriding `min_max_range`. -/
structure CustomParams where
  min_max_lo : ℝ
  min_max_hi : ℝ

/-- `params.update(custom_params)` for the custom parameters actually used
by the code: replace the `min_max_range` entry. -/
def DomainParams.updateWith (p : DomainParams) (c : CustomParams) : DomainParams :=
  { p with min_max_lo := c.min_max_lo, min_max_hi := c.min_max_hi }

/-- The initial `self.domain_params` table built in `MagnitudeScaler.__init__`. -/
noncomputable def initialDomainParams : List (String × DomainParams) :=
  [("port",    ⟨8,  3/20, 0, 3/10,  3⟩),
   ("farm",    ⟨10, 3/25, 0, 1/4,   4⟩),
   ("mine",    ⟨7,  9/50, 0, 7/20,  14/5⟩),
   ("energy",  ⟨9,  7/50, 0, 7/25,  7/2⟩),
   ("default", ⟨10, 1/10, 0, 1/5,   5⟩)]

/-- The scaler object: current method and current (mutable) parameter table. -/
structure MagnitudeScaler where
  method : ScalingMethod
  domain_params : List (String × DomainParams)

/-- `MagnitudeScaler(method)`: fresh scaler with the initial parameter table. -/
noncomputable def MagnitudeScaler.init (method : ScalingMethod) : MagnitudeScaler :=
  { method := method, domain_params := initialDomainParams }

/-- `_sigmoid_scale`: `1/(1+exp(-k(x-x0)))`, clamped.  (The Python
`OverflowError` fallback snaps to `0`/`1` by the sign of `x-x0`; over `ℝ`
the formula itself is total and agrees with that limit behaviour.) -/
noncomputable def sigmoidScale (p : DomainParams) (value : ℝ) : ℝ :=
  max 0 (min 1 (1 / (1 + Real.exp (-p.sigmoid_k * (value - p.sigmoid_x0)))))

/-- `_min_max_scale`: linear rescaling of the expected range, clamped;
`0.5` on a degenerate range. -/
noncomputable def minMaxScale (p : DomainParams) (value : ℝ) : ℝ :=
  if p.min_max_hi ≤ p.min_max_lo then 1/2
  else max 0 (min 1 ((value - p.min_max_lo) / (p.min_max_hi - p.min_max_lo)))

/-- `_tanh_scale`: `(tanh(s·x)+1)/2`, clamped. -/
noncomputable def tanhScale (p : DomainParams) (value : ℝ) : ℝ :=
  max 0 (min 1 ((Real.tanh (p.tanh_scale * value) + 1) / 2))

/-- `_arctan_scale`: `atan(s·x)/π + 0.5` with the default `arctan_scale = 10`
(the key is never present in `domain_params`), clamped. -/
noncomputable def arctanScale (value : ℝ) : ℝ :=
  max 0 (min 1 (Real.arctan (10 * value) / Real.pi + 1/2))

/-- `_log_scale`: `log(1+s·x)/log(1+s)` with the default
`log_offset = log_scale = 1`, clamped; `0` for non-positive input. -/
noncomputable def logScale (value : ℝ) : ℝ :=
  if value ≤ 0 then 0
  else max 0 (min 1 (Real.log (1 + value) / Real.log 2))

/-- The method dispatch of `MagnitudeScaler.scale` (its trailing `else`
clamps, as the `NONE` method does). -/
noncomputable def applyMethod : ScalingMethod → DomainParams → ℝ → ℝ
  | .SIGMOID, p, v => sigmoidScale p v
  | .MIN_MAX, p, v => minMaxScale p v
  | .TANH, p, v => tanhScale p v
  | .ARCTAN, _, v => arctanScale v
  | .LOG_SCALE, _, v => logScale v
  | .NONE, _, v => min 1 (max 0 v)

/-- Replace the value stored under `k` in an association list (Python dict
mutation at an existing key). -/
def setAssoc (l : List (String × DomainParams)) (k : String) (v : DomainParams) :
    List (String × DomainParams) :=
  l.map (fun p => if p.1 = k then (k, v) else p)

/-- `MagnitudeScaler.scale(value, domain, custom_params)`.  Returns the
scaled value together with the scaler state after the call: when
`custom_params` is supplied, `params.update(custom_params)` mutates the
dict object found in `self.domain_params` (the domain's own entry, or the
`'default'` entry for an unknown domain) — the scaler is NOT stateless. -/
noncomputable def MagnitudeScaler.scale (sc : MagnitudeScaler) (value : ℝ)
    (domain : String) (custom : Option CustomParams) : ℝ × MagnitudeScaler :=
  if sc.method = .NONE then (min 1 (max 0 value), sc)
  else
    let key := if (sc.domain_params.lookup domain).isSome then domain else "default"
    let p0 := (sc.domain_params.lookup key).getD ⟨10, 1/10, 0, 1/5, 5⟩
    match custom with
    | some c =>
      let p := p0.updateWith c
      (applyMethod sc.method p value,
       { sc with domain_params := setAssoc sc.domain_params key p })
    | none => (applyMethod sc.method p0 value, sc)

/-- State-threading of `scale` over a list of values (the list comprehension
in `batch_scale`, whose per-element calls share the mutated dict). -/
noncomputable def scaleAll (sc : MagnitudeScaler) (values : List ℝ)
    (domain : String) (custom : Option CustomParams) : List ℝ × MagnitudeScaler :=
  match values with
  | [] => ([], sc)
  | v :: vs =>
    let r := sc.scale v domain custom
    let rest := scaleAll r.2 vs domain custom
    (r.1 :: rest.1, rest.2)

/-- Minimum of a non-empty list (Python `min(values)`); `0` on `[]`,
unreachable at the call sites. -/
noncomputable def listMin : List ℝ → ℝ
  | [] => 0
  | v :: vs => vs.foldl min v

/-- Maximum of a non-empty list (Python `max(values)`). -/
noncomputable def listMax : List ℝ → ℝ
  | [] => 0
  | v :: vs => vs.foldl max v

/-- `MagnitudeScaler.batch_scale(values, domain, adaptive)`: in adaptive
min-max mode, recompute the range from the batch (10% padding each side,
floor at 0) and pass it as custom parameters to every `scale` call. -/
noncomputable def MagnitudeScaler.batch_scale (sc : MagnitudeScaler)
    (values : List ℝ) (domain : String) (adaptive : Bool) :
    List ℝ × MagnitudeScaler :=
  if values = [] then ([], sc)
  else if adaptive ∧ sc.method = .MIN_MAX then
    let mn := listMin values
    let mx := listMax values
    let pad := (mx - mn) * (1/10)
    scaleAll sc values domain (some ⟨max 0 (mn - pad), mx + pad⟩)
  else
    scaleAll sc values domain none

/-! ## Confidence metrics (`confidence_metrics.py`)

Stability metrics and confidence calculation.  `float('inf')` (returned by
the coefficient of variation on degenerate input) is modelled by `none`. -/

/-- The `ConfidenceLevel` enum. -/
inductive ConfidenceLevel where
  | very_high | high | medium | low | very_low | insufficient_data
  deriving DecidableEq, Repr

/-- `statistics.mean` (`0` on `[]`, unreachable at the call sites). -/
noncomputable def listMean (values : List ℝ) : ℝ :=
  values.sum / values.length

/-- `statistics.stdev`: sample standard deviation, divisor `n - 1`. -/
noncomputable def sampleStdev (values : List ℝ) : ℝ :=
  Real.sqrt ((values.map (fun v => (v - listMean values) ^ 2)).sum /
    ((values.length : ℝ) - 1))

/-- `StabilityMetrics.coefficient_of_variation`: `stdev/|mean|`;
`float('inf')` (here `none`) when fewer than 2 values or `|mean| < 1e-10`. -/
noncomputable def coefficient_of_variation (values : List ℝ) : Option ℝ :=
  if values.length < 2 then none
  else if |listMean values| < 1/10^10 then none
  else some (sampleStdev values / |listMean values|)

/-- `StabilityMetrics.mean_absolute_deviation` (its `float('inf')` branch
for `[]` is unreachable from `calculate_confidence`, which requires at
least 3 observations; on `[]` this formula yields `0`). -/
noncomputable def mean_absolute_deviation (values : List ℝ) : ℝ :=
  (values.map (fun v => |v - listMean values|)).sum / values.length

/-- `StabilityMetrics.trend_stability`: R² of the OLS fit of value against
index, clamped to `[0,1]`; `0` for fewer than 3 points or a degenerate
denominator, `1` when total variance is (near) zero. -/
noncomputable def trend_stability (values : List ℝ) : ℝ :=
  if values.length < 3 then 0
  else
    let n := values.length
    let xMean : ℝ := ((List.range n).map (fun i => (i : ℝ))).sum / n
    let yMean : ℝ := values.sum / n
    let numerator := ((List.range n).map
      (fun (i : ℕ) => ((i : ℝ) - xMean) * (values.getD i 0 - yMean))).sum
    let denominator := ((List.range n).map (fun i => ((i : ℝ) - xMean) ^ 2)).sum
    if |denominator| < 1/10^10 then 0
    else
      let slope := numerator / denominator
      let intercept := yMean - slope * xMean
      let ssRes := ((List.range n).map
        (fun (i : ℕ) => (values.getD i 0 - (slope * (i : ℝ) + intercept)) ^ 2)).sum
      let ssTot := ((List.range n).map
        (fun (i : ℕ) => (values.getD i 0 - yMean) ^ 2)).sum
      if |ssTot| < 1/10^10 then 1
      else max 0 (min 1 (1 - ssRes / ssTot))

/-- `StabilityMetrics.volatility_score` with the default window size 3:
normalized range `(max-min)/|mean|` of each rolling window (windows with
`|mean| ≤ 1e-10` are skipped), averaged, then squashed through
`1/(1+exp(-5(avg-0.3)))`; `1.0` when there are fewer points than the
window or no usable window. -/
noncomputable def volatility_score (values : List ℝ) : ℝ :=
  if values.length < 3 then 1
  else
    let differences := (List.range (values.length - 3 + 1)).filterMap (fun i =>
      let window := (values.drop i).take 3
      let windowRange := listMax window - listMin window
      let windowMean := window.sum / window.length
      if 1/10^10 < |windowMean| then some (windowRange / |windowMean|) else none)
    if differences = [] then 1
    else
      let avgVolatility := differences.sum / differences.length
      1 / (1 + Real.exp (-5 * (avgVolatility - 3/10)))

/-- `StabilityMetrics.outlier_ratio` with the default `z_threshold = 2`:
fraction of points farther than `2` sample standard deviations from the
mean; `0` for fewer than 3 points or (near) zero variance. -/
noncomputable def outlier_ratio (values : List ℝ) : ℝ :=
  if values.length < 3 then 0
  else if sampleStdev values < 1/10^10 then 0
  else ((values.filter
    (fun v => 2 * sampleStdev values < |v - listMean values|)).length : ℝ) /
    values.length

/-- The cv/mad tolerance factors of
`ConfidenceCalculator._get_domain_thresholds` (the `deviation_threshold`
entry of each dict is never read).  An absent domain, including `None`,
falls back to the `'default'` factors. -/
def confDomainFactors (domain : Option String) : ℚ × ℚ :=
  match domain with
  | some "port" => (5, 8)
  | some "farm" => (3, 5)
  | some "mine" => (4, 6)
  | some "energy" => (7/2, 11/2)
  | _ => (4, 6)

/-- `ConfidenceCalculator._compute_confidence_score`: convert each metric
to a goodness score, average with the fixed weights
`{cv: 0.25, mad: 0.20, trend: 0.20, volatility: 0.20, outliers: 0.15}`
(normalized by their sum) and clamp to `[0,1]`. -/
noncomputable def computeConfidenceScore (observations : List ℝ)
    (domain : Option String) : ℝ :=
  let f := confDomainFactors domain
  let cvScore : ℝ := match coefficient_of_variation observations with
    | none => 0
    | some cv => 1 / (1 + cv * (f.1 : ℝ))
  let madScore : ℝ :=
    if 0 < listMean observations then
      1 / (1 + (mean_absolute_deviation observations / listMean observations) *
        (f.2 : ℝ))
    else 1/2
  let trendScore := trend_stability observations
  let volatilityScore := 1 - volatility_score observations
  let outlierScore := 1 - outlier_ratio observations
  let total : ℝ := 1/4 + 1/5 + 1/5 + 1/5 + 3/20
  max 0 (min 1 (((1/4) * cvScore + (1/5) * madScore + (1/5) * trendScore +
    (1/5) * volatilityScore + (3/20) * outlierScore) / total))

/-- `ConfidenceCalculator._assess_current_deviation`: a `[0,1]` factor from
the z-score of the current value against the history (`0.5` for any
deviation from a zero-variance history, sigmoid `1/(1+exp(1.5(z-1.5)))`
otherwise). -/
noncomputable def assessCurrentDeviation (observations : List ℝ)
    (current : ℝ) : ℝ :=
  if observations = [] then 1
  else
    let meanVal := listMean observations
    let stdDev := if 1 < observations.length then sampleStdev observations else 0
    if stdDev < 1/10^10 then
      if |current - meanVal| < 1/10^10 then 1 else 1/2
    else
      1 / (1 + Real.exp ((3/2) * (|current - meanVal| / stdDev - 3/2)))

/-- `ConfidenceCalculator._determine_confidence_level`: fixed breakpoints. -/
noncomputable def determineConfidenceLevel (score : ℝ) : ConfidenceLevel :=
  if 17/20 ≤ score then .very_high
  else if 7/10 ≤ score then .high
  else if 1/2 ≤ score then .medium
  else if 3/10 ≤ score then .low
  else .very_low

/-- Round-half-to-even on a real number (Python `round` applied to the
values stored in the result dicts). -/
noncomputable def roundHalfEvenR (x : ℝ) : ℤ :=
  if Int.fract x < 1/2 then ⌊x⌋
  else if 1/2 < Int.fract x then ⌊x⌋ + 1
  else if ⌊x⌋ % 2 = 0 then ⌊x⌋ else ⌊x⌋ + 1

/-- Python `round(x, d)` over `ℝ`. -/
noncomputable def roundDecR (d : ℕ) (x : ℝ) : ℝ :=
  (roundHalfEvenR (x * 10 ^ d) : ℝ) / 10 ^ d

/-- The fields of the dict returned by
`ConfidenceCalculator.calculate_confidence` that the claims are about (the
`metrics` sub-dict and the interpretation strings are omitted). -/
structure ConfidenceResult where
  confidence_level : ConfidenceLevel
  confidence_score : ℝ
  observation_count : ℕ

/-- `ConfidenceCalculator.calculate_confidence` with the default
`min_observations = 3`, `max_observations = 30`: window the history to the
last 30 values, return `insufficient_data` with score exactly `0.0` when
fewer than 3 remain, otherwise the composite stability score (optionally
damped by the current value's deviation), rounded to 4 digits. -/
noncomputable def calculate_confidence (observations : List ℝ)
    (current_value : Option ℝ) (domain : Option String) : ConfidenceResult :=
  let obs := if 30 < observations.length then
    observations.drop (observations.length - 30) else observations
  if obs.length < 3 then
    { confidence_level := .insufficient_data
      confidence_score := 0
      observation_count := obs.length }
  else
    let score0 := computeConfidenceScore obs domain
    let score := match current_value with
      | some c => score0 * assessCurrentDeviation obs c
      | none => score0
    { confidence_level := determineConfidenceLevel score
      confidence_score := roundDecR 4 score
      observation_count := obs.length }

/-! ## Contextual scoring and combined assessment (`anomaly_scoring.py`) -/

/-- The `statistical_context` sub-dict added by
`calculate_contextual_anomaly_score` when history is supplied. -/
structure StatContext where
  historical_mean : ℚ
  historical_std : ℝ
  z_score : ℝ
  deviation_percentage : ℚ
  sample_size : ℕ

/-- The result of `calculate_contextual_anomaly_score` (the fields of the
basic result it modifies or adds; `statistical_context` and the
significance label are absent when no history is given). -/
structure ContextualResult where
  anomaly_score : ℝ
  statistical_context : Option StatContext
  statistical_significance : Option String

/-- Module-level `calculate_contextual_anomaly_score(current, historical,
domain)`: score the current magnitude, then — when history is non-empty —
compute its mean, the standard deviation with divisor `n` (the code divides
the squared deviations by `len(historical_magnitudes)`), and the z-score of
the current magnitude; when `|z| > 2` amplify the (already rounded) basic
anomaly score by `1 + (|z|-2)*0.1`, capping at `1.0`. -/
noncomputable def calculate_contextual_anomaly_score (cfg : ScorerConfig)
    (current_magnitude : ℚ) (historical_magnitudes : List ℚ)
    (domain : Option String) : ContextualResult :=
  let base := calculate_anomaly_score cfg current_magnitude domain none
  match historical_magnitudes with
  | [] => { anomaly_score := (base.anomaly_score : ℝ)
            statistical_context := none
            statistical_significance := none }
  | _ :: _ =>
    let meanHistorical : ℚ :=
      historical_magnitudes.sum / historical_magnitudes.length
    let variance : ℚ :=
      (historical_magnitudes.map (fun x => (x - meanHistorical) ^ 2)).sum /
        historical_magnitudes.length
    let stdDev : ℝ := Real.sqrt (variance : ℝ)
    let zScore : ℝ :=
      if 0 < stdDev then ((current_magnitude : ℝ) - (meanHistorical : ℝ)) / stdDev
      else 0
    let deviationFactor : ℚ :=
      |current_magnitude - meanHistorical| / (meanHistorical + 1/1000)
    let score : ℝ :=
      if 2 < |zScore| then
        min 1 ((base.anomaly_score : ℝ) * (1 + (|zScore| - 2) * (1/10)))
      else (base.anomaly_score : ℝ)
    { anomaly_score := score
      statistical_context := some
        { historical_mean := roundDec 4 meanHistorical
          historical_std := roundDecR 4 stdDev
          z_score := roundDecR 2 zScore
          deviation_percentage := roundDec 1 (deviationFactor * 100)
          sample_size := historical_magnitudes.length }
      statistical_significance := some
        (if 3 < |zScore| then "Highly significant (>3 sigma)"
         else if 2 < |zScore| then "Significant (>2 sigma)"
         else if 1 < |zScore| then "Notable (>1 sigma)"
         else "Within normal range") }

/-- The dict returned by `AnomalyScorer._generate_combined_assessment`. -/
structure CombinedAssessment where
  priority : String
  recommended_action : String
  confidence_weight : ℝ
  requires_human_review : Bool

/-- `AnomalyScorer._generate_combined_assessment`: the priority matrix over
anomaly level and confidence level, plus the human-review flag. -/
noncomputable def generate_combined_assessment (anomaly_level : AnomalyLevel)
    (confidence_level : ConfidenceLevel) (confidence_score : ℝ) :
    CombinedAssessment :=
  let pa : String × String :=
    if anomaly_level = .critical ∨ anomaly_level = .high then
      if confidence_level = .very_high ∨ confidence_level = .high then
        ("CRITICAL - High confidence anomaly detected",
         "Immediate investigation required")
      else if confidence_level = .medium then
        ("HIGH - Anomaly detected with moderate confidence",
         "Investigation recommended within 24 hours")
      else
        ("MEDIUM - Anomaly detected but low confidence",
         "Monitor closely and gather more data")
    else if anomaly_level = .medium then
      if confidence_level = .very_high ∨ confidence_level = .high then
        ("MEDIUM - Confirmed moderate anomaly", "Schedule review within 48 hours")
      else
        ("LOW - Uncertain moderate anomaly", "Continue monitoring")
    else
      if confidence_level = .very_high ∨ confidence_level = .high then
        ("LOW - Normal behavior confirmed", "Routine monitoring")
      else
        ("INFO - Normal behavior but uncertain", "Gather more observations")
  { priority := pa.1
    recommended_action := pa.2
    confidence_weight := roundDecR 3 confidence_score
    requires_human_review :=
      (anomaly_level = .critical ∨ anomaly_level = .high) ∨
      (confidence_level = .very_low ∨ confidence_level = .insufficient_data) }

/-! ## Weights configuration validation (`weights_loader.py`) -/

/-- One entry of the parsed `weights.json` under `domains` (or the
top-level `default` entry): the `weights` dict (we keep its values) and the
`thresholds` dict, either of which may be absent. -/
structure RawDomainEntry where
  weights : Option (List ℚ)
  thresholds : Option ThresholdsQ
  deriving DecidableEq, Repr

/-- The parsed `weights.json` top level.  Each required key may be absent
(`WeightsManager._validate_weights` checks for that). -/
structure RawWeightsData where
  domains : Option (List (String × RawDomainEntry))
  defaultEntry : Option RawDomainEntry
  version : Option String
  embedding_dimensions : Option ℕ
  deriving DecidableEq, Repr

/-- The per-domain loop of `WeightsManager._validate_weights`: first error
among "missing `weights` key" and "wrong weight count", scanning in order. -/
def validateDomainEntries : List (String × RawDomainEntry) → ℕ → Option String
  | [], _ => none
  | (name, entry) :: rest, expectedDims =>
    match entry.weights with
    | none => some ("Domain '" ++ name ++ "' missing 'weights' configuration")
    | some ws =>
      if ws.length ≠ expectedDims then
        some ("Domain '" ++ name ++ "' has wrong number of weights")
      else validateDomainEntries rest expectedDims

/-- `WeightsManager._validate_weights`: require the four top-level keys,
check every domain's weight count and the default entry's weight count
against `embedding_dimensions`.  (Thresholds are never inspected.)  An
exception is modelled as `Except.error`. -/
def validate_weights (d : RawWeightsData) : Except String Unit :=
  if d.domains.isNone then
    .error "Missing required key in weights.json: domains"
  else if d.defaultEntry.isNone then
    .error "Missing required key in weights.json: default"
  else if d.version.isNone then
    .error "Missing required key in weights.json: version"
  else if d.embedding_dimensions.isNone then
    .error "Missing required key in weights.json: embedding_dimensions"
  else
    match validateDomainEntries (d.domains.getD [])
        (d.embedding_dimensions.getD 64) with
    | some e => .error e
    | none =>
      if (((d.defaultEntry.getD ⟨none, none⟩).weights).getD []).length ≠
          d.embedding_dimensions.getD 64 then
        .error "Default weights has wrong number of weights"
      else .ok ()

/-! ## Auxiliary facts about the scorer -/

/-- The per-domain multiplier is at least `1`. -/
theorem one_le_calcDomainMultiplier (ws : List ℚ) :
    1 ≤ calcDomainMultiplier ws := by
  simp only [calcDomainMultiplier]
  have hsum : (0:ℚ) ≤ ((ws.filter (fun w => w ≠ 1)).map (fun w => |w|)).sum := by
    apply List.sum_nonneg
    intro x hx
    simp only [List.mem_map] at hx
    obtain ⟨a, _, rfl⟩ := hx
    exact abs_nonneg a
  have hlen : (0:ℚ) ≤ ((ws.filter (fun w => w ≠ 1)).length : ℚ) := by positivity
  split_ifs with h
  · have hlenpos : (0:ℚ) < ((ws.filter (fun w => w ≠ 1)).length : ℚ) := by
      have : (ws.filter (fun w => w ≠ 1)).length ≠ 0 := by
        simpa [List.length_eq_zero] using h
      exact_mod_cast Nat.pos_of_ne_zero this
    nlinarith [div_nonneg hsum hlenpos.le, div_nonneg hlen (by norm_num : (0:ℚ) ≤ 64)]
  · nlinarith [div_nonneg hlen (by norm_num : (0:ℚ) ≤ 64)]

/-- Every value of the multipliers dict (with the `.get` default `1.0`)
is non-negative. -/
theorem zero_le_domainMultiplier (cfg : ScorerConfig) (d : String) :
    0 ≤ (domainMultipliers cfg d).getD 1 := by
  unfold domainMultipliers
  split_ifs
  · norm_num
  · cases h : cfg.domains.lookup d with
    | none => simp
    | some c =>
      simp only [h, Option.map_some', Option.getD_some]
      linarith [one_le_calcDomainMultiplier c.weights]

/-- The confidence factor is non-negative. -/
theorem zero_le_confidenceFactor (c : Option String) :
    0 ≤ confidenceFactor c := by
  cases c with
  | none => norm_num [confidenceFactor]
  | some s =>
    simp only [confidenceFactor]
    split_ifs <;> norm_num

/-- A small concrete configuration used by the witnesses: one `port` domain
with weights `[2, 1/2, 1]` and no explicit thresholds. -/
def sampleConfig : ScorerConfig :=
  { domains := [("port", { weights := [2, 1/2, 1],
                           thresholds := ⟨none, none, none, none⟩ })]
    defaultCfg := { weights := [1], thresholds := ⟨none, none, none, none⟩ } }

/-- C1: For every loaded configuration, the domain multiplier computed for
each non-default domain equals
`1 + (count of weights ≠ 1.0 / 64) * mean(|weights ≠ 1.0|) * 0.5`, and the
multiplier returned for the `default` domain is exactly `1.0`. -/
theorem C1_domain_multiplier_formula (cfg : ScorerConfig) (name : String)
    (c : DomainCfg) (hname : name ≠ "default")
    (hlook : cfg.domains.lookup name = some c)
    (hnd : c.weights.filter (fun w => w ≠ 1) ≠ []) :
    domainMultipliers cfg name =
      some (1 + (((c.weights.filter (fun w => w ≠ 1)).length : ℚ) / 64) *
        (((c.weights.filter (fun w => w ≠ 1)).map (fun w => |w|)).sum /
          ((c.weights.filter (fun w => w ≠ 1)).length : ℚ)) * (1/2)) ∧
    domainMultipliers cfg "default" = some 1 := by
  constructor
  · simp only [domainMultipliers, hname, if_false, hlook, Option.map_some',
      calcDomainMultiplier, if_pos hnd]
  · simp [domainMultipliers]

theorem C1_domain_multiplier_formula_witness :
    ("port" : String) ≠ "default" ∧
    domainMultipliers sampleConfig "port" = some (261/256) ∧
    domainMultipliers sampleConfig "default" = some 1 := by
  have h := C1_domain_multiplier_formula sampleConfig "port"
    ⟨[2, 1/2, 1], ⟨none, none, none, none⟩⟩ (by decide) rfl (by norm_num; simp)
  have habs : |(1:ℚ)/2| = 1/2 := abs_of_pos (by norm_num)
  refine ⟨by decide, ?_, h.2⟩
  rw [h.1]
  norm_num [habs]

/-- C2: For every fixed domain and fixed (possibly absent) confidence
level, and raw magnitudes `x1 ≤ x2` in `[0,1]`, the anomaly score returned
by `calculate_anomaly_score` is monotone. -/
theorem C2_anomaly_score_monotone (cfg : ScorerConfig)
    (domain confidence_level : Option String) (x1 x2 : ℚ)
    (h0 : 0 ≤ x1) (h12 : x1 ≤ x2) (h1 : x2 ≤ 1) :
    (calculate_anomaly_score cfg x1 domain confidence_level).anomaly_score ≤
    (calculate_anomaly_score cfg x2 domain confidence_level).anomaly_score := by
  have hm := zero_le_domainMultiplier cfg (resolveDomain cfg domain)
  have hcf := zero_le_confidenceFactor confidence_level
  simp only [calculate_anomaly_score]
  apply roundDec_mono
  refine min_le_min (le_refl 1) ?_
  exact mul_le_mul_of_nonneg_right (mul_le_mul_of_nonneg_right h12 hm) hcf

theorem C2_anomaly_score_monotone_witness :
    ((0:ℚ) ≤ 1/10 ∧ (1/10:ℚ) ≤ 1/2 ∧ (1/2:ℚ) ≤ 1) ∧
    (calculate_anomaly_score sampleConfig (1/10) (some "port")
        (some "medium")).anomaly_score ≤
    (calculate_anomaly_score sampleConfig (1/2) (some "port")
        (some "medium")).anomaly_score :=
  ⟨by norm_num, C2_anomaly_score_monotone sampleConfig (some "port")
    (some "medium") (1/10) (1/2) (by norm_num) (by norm_num) (by norm_num)⟩

/-- The clamp `max(0.0, min(1.0, s))` always lands in `[0,1]`. -/
theorem clamp01_mem (s : ℝ) : 0 ≤ max 0 (min 1 s) ∧ max 0 (min 1 s) ≤ 1 :=
  ⟨le_max_left 0 (min 1 s), max_le zero_le_one (min_le_left 1 s)⟩

/-- Every scaling method's body produces a value in `[0,1]`. -/
theorem applyMethod_mem (m : ScalingMethod) (p : DomainParams) (v : ℝ) :
    0 ≤ applyMethod m p v ∧ applyMethod m p v ≤ 1 := by
  cases m with
  | SIGMOID => exact clamp01_mem _
  | MIN_MAX =>
    simp only [applyMethod, minMaxScale]
    split_ifs
    · norm_num
    · exact clamp01_mem _
  | TANH => exact clamp01_mem _
  | ARCTAN => exact clamp01_mem _
  | LOG_SCALE =>
    simp only [applyMethod, logScale]
    split_ifs
    · norm_num
    · exact clamp01_mem _
  | NONE =>
    exact ⟨le_min zero_le_one (le_max_left 0 v), min_le_left 1 (max 0 v)⟩

/-- C3: For every scaling method, every domain string and every real input
(and any scaler state and custom parameters), `MagnitudeScaler.scale`
returns a value in the closed interval `[0,1]`. -/
theorem C3_scale_in_unit_interval (sc : MagnitudeScaler) (value : ℝ)
    (domain : String) (custom : Option CustomParams) :
    0 ≤ (sc.scale value domain custom).1 ∧
    (sc.scale value domain custom).1 ≤ 1 := by
  unfold MagnitudeScaler.scale
  split_ifs <;>
    first
    | exact ⟨le_min zero_le_one (le_max_left 0 value), min_le_left 1 (max 0 value)⟩
    | cases custom with
      | none => exact applyMethod_mem _ _ _
      | some c => exact applyMethod_mem _ _ _

/-- C4: Severity classification uses strict `<` against the four thresholds
in ascending order, so a score exactly equal to a threshold lands in the
higher of the two adjacent bands; and `requires_attention` is true iff the
level is `high` or `critical`. -/
theorem C4_threshold_boundaries (cfg : ScorerConfig) (d : String)
    (t1 t2 t3 t4 : ℚ) (ht : effectiveThresholds cfg d = (t1, t2, t3, t4))
    (h12 : t1 < t2) (h23 : t2 < t3) (h34 : t3 < t4) :
    determineAnomalyLevel cfg t1 d = .low ∧
    determineAnomalyLevel cfg t2 d = .medium ∧
    determineAnomalyLevel cfg t3 d = .high ∧
    determineAnomalyLevel cfg t4 d = .critical ∧
    (∀ raw dom conf,
      (calculate_anomaly_score cfg raw dom conf).requires_attention = true ↔
      ((calculate_anomaly_score cfg raw dom conf).anomaly_level = .high ∨
       (calculate_anomaly_score cfg raw dom conf).anomaly_level = .critical)) := by
  refine ⟨?_, ?_, ?_, ?_, ?_⟩
  · simp only [determineAnomalyLevel, ht]
    rw [if_neg (lt_irrefl t1), if_pos h12]
  · simp only [determineAnomalyLevel, ht]
    rw [if_neg (by linarith : ¬ t2 < t1), if_neg (lt_irrefl t2), if_pos h23]
  · simp only [determineAnomalyLevel, ht]
    rw [if_neg (by linarith : ¬ t3 < t1), if_neg (by linarith : ¬ t3 < t2),
      if_neg (lt_irrefl t3), if_pos h34]
  · simp only [determineAnomalyLevel, ht]
    rw [if_neg (by linarith : ¬ t4 < t1), if_neg (by linarith : ¬ t4 < t2),
      if_neg (by linarith : ¬ t4 < t3), if_neg (lt_irrefl t4)]
  · intro raw dom conf
    simp only [calculate_anomaly_score]
    simp [decide_eq_true_iff]

theorem C4_threshold_boundaries_witness :
    (effectiveThresholds sampleConfig "port" = (1/50, 1/20, 1/10, 3/20) ∧
      ((1:ℚ)/50 < 1/20 ∧ (1:ℚ)/20 < 1/10 ∧ (1:ℚ)/10 < 3/20)) ∧
    (determineAnomalyLevel sampleConfig (1/50) "port" = .low ∧
     determineAnomalyLevel sampleConfig (1/20) "port" = .medium ∧
     determineAnomalyLevel sampleConfig (1/10) "port" = .high ∧
     determineAnomalyLevel sampleConfig (3/20) "port" = .critical) := by
  have h := C4_threshold_boundaries sampleConfig "port" (1/50) (1/20) (1/10)
    (3/20) rfl (by norm_num) (by norm_num) (by norm_num)
  exact ⟨⟨rfl, by norm_num, by norm_num, by norm_num⟩, h.1, h.2.1, h.2.2.1, h.2.2.2.1⟩

/-- C5: For every history with fewer than 3 elements and any optional
current value and domain, `calculate_confidence` returns the
`insufficient_data` level and a confidence score of exactly `0.0`. -/
theorem C5_insufficient_data (observations : List ℝ) (current_value : Option ℝ)
    (domain : Option String) (h : observations.length < 3) :
    (calculate_confidence observations current_value domain).confidence_level =
      .insufficient_data ∧
    (calculate_confidence observations current_value domain).confidence_score
      = 0 := by
  have h30 : ¬ 30 < observations.length := by omega
  simp [calculate_confidence, h30, h]

theorem C5_insufficient_data_witness :
    ([(1:ℝ)/10, 3/25].length < 3) ∧
    ((calculate_confidence [(1:ℝ)/10, 3/25] (some (1/4))
        (some "mine")).confidence_level = .insufficient_data ∧
     (calculate_confidence [(1:ℝ)/10, 3/25] (some (1/4))
        (some "mine")).confidence_score = 0) :=
  ⟨by simp, C5_insufficient_data [(1:ℝ)/10, 3/25] (some (1/4)) (some "mine")
    (by simp)⟩

/-- The five priority labels of the combined-assessment matrix. -/
def priorityLabels : List String := ["CRITICAL", "HIGH", "MEDIUM", "LOW", "INFO"]

/-- C9: The priority matrix is total — every pair of the 5 anomaly levels
and 6 confidence levels produces a priority string beginning with exactly
one of the 5 labels — and `requires_human_review` holds iff the anomaly
level is high/critical or the confidence level is
very_low/insufficient_data. -/
theorem C9_priority_matrix_total (al : AnomalyLevel) (cl : ConfidenceLevel)
    (cs : ℝ) :
    (priorityLabels.filter (fun l => l.data.isPrefixOf
      (generate_combined_assessment al cl cs).priority.data)).length = 1 ∧
    ((generate_combined_assessment al cl cs).requires_human_review = true ↔
      ((al = .critical ∨ al = .high) ∨
       (cl = .very_low ∨ cl = .insufficient_data))) := by
  cases al <;> cases cl <;>
    refine ⟨?_, ?_⟩ <;>
    simp only [generate_combined_assessment, priorityLabels] <;>
    decide

/-- C10: `batch_score` returns one result per input tuple, each carrying
its input's `aoi_id` (the output is a permutation of the per-input scoring
results), and the returned list is sorted in non-increasing order of
anomaly score. -/
theorem C10_batch_score_sorted (cfg : ScorerConfig)
    (magnitudes : List (String × ℚ × Option String)) :
    (batch_score cfg magnitudes).Perm (magnitudes.map (fun t =>
      ({ aoi_id := t.1,
         result := calculate_anomaly_score cfg t.2.1 t.2.2 none } :
        BatchScoreItem))) ∧
    (batch_score cfg magnitudes).Pairwise (fun a b =>
      b.result.anomaly_score ≤ a.result.anomaly_score) := by
  constructor
  · exact List.mergeSort_perm _ _
  · have h := @List.sorted_mergeSort BatchScoreItem
      (fun a b : BatchScoreItem =>
        decide (b.result.anomaly_score ≤ a.result.anomaly_score))
      (fun a b c h₁ h₂ => by
        simp only [decide_eq_true_iff] at *
        exact le_trans h₂ h₁)
      (fun a b => by
        simpa using le_total b.result.anomaly_score a.result.anomaly_score)
      (magnitudes.map (fun t =>
        ({ aoi_id := t.1,
           result := calculate_anomaly_score cfg t.2.1 t.2.2 none } :
          BatchScoreItem)))
    unfold batch_score
    simpa using h

/-- The domain loop of `_validate_weights` succeeds iff every domain entry
has a `weights` key with exactly the expected number of weights. -/
theorem validateDomainEntries_eq_none_iff
    (l : List (String × RawDomainEntry)) (n : ℕ) :
    validateDomainEntries l n = none ↔
    ∀ p ∈ l, ∃ ws, p.2.weights = some ws ∧ ws.length = n := by
  induction l with
  | nil => simp [validateDomainEntries]
  | cons hd tl ih =>
    obtain ⟨name, entry⟩ := hd
    simp only [validateDomainEntries]
    split
    next hw =>
      constructor
      · intro h; simp at h
      · intro h
        obtain ⟨ws, hws, _⟩ := h (name, entry) (List.mem_cons_self _ _)
        rw [hw] at hws
        simp at hws
    next ws hw =>
      split_ifs with hlen
      · constructor
        · intro h; simp at h
        · intro h
          obtain ⟨ws', hws', hlen'⟩ := h (name, entry) (List.mem_cons_self _ _)
          rw [hw] at hws'
          simp only [Option.some.injEq] at hws'
          exact hlen (hws' ▸ hlen')
      · rw [ih]
        simp only [List.forall_mem_cons]
        constructor
        · intro h
          exact ⟨⟨ws, hw, not_ne_iff.mp hlen⟩, h⟩
        · intro h
          exact h.2

/-- C8 (amended): `_validate_weights` succeeds iff the four required
top-level keys are present and every domain entry, as well as the default
entry, carries exactly `embedding_dimensions` many weights.  Thresholds are
not inspected at all. -/
theorem C8_amended_validation_iff (d : RawWeightsData) :
    validate_weights d = .ok () ↔
      (d.domains.isSome ∧ d.defaultEntry.isSome ∧ d.version.isSome ∧
       d.embedding_dimensions.isSome ∧
       (∀ p ∈ d.domains.getD [], ∃ ws, p.2.weights = some ws ∧
          ws.length = d.embedding_dimensions.getD 64) ∧
       ((d.defaultEntry.getD ⟨none, none⟩).weights.getD []).length =
          d.embedding_dimensions.getD 64) := by
  rcases hdo : d.domains with _ | doms
  · simp [validate_weights, hdo]
  rcases hde : d.defaultEntry with _ | de
  · simp [validate_weights, hdo, hde]
  rcases hve : d.version with _ | ver
  · simp [validate_weights, hdo, hde, hve]
  rcases hdim : d.embedding_dimensions with _ | dims
  · simp [validate_weights, hdo, hde, hve, hdim]
  simp only [validate_weights, hdo, hde, hve, hdim, Option.isNone_some,
    Bool.false_eq_true, if_false, Option.getD_some, Option.isSome_some,
    true_and]
  rcases hv : validateDomainEntries doms dims with _ | e
  · simp only [hv]
    split_ifs with hlen
    · constructor
      · intro h; simp at h
      · intro h; exact hlen h.2
    · simp only [not_ne_iff] at hlen
      constructor
      · intro _
        exact ⟨(validateDomainEntries_eq_none_iff _ _).mp hv, hlen⟩
      · intro _; rfl
  · simp only [hv]
    constructor
    · intro h; simp at h
    · intro h
      have h5 := (validateDomainEntries_eq_none_iff doms dims).mpr h.1
      rw [hv] at h5
      simp at h5

/-- A configuration with the correct weight counts but decreasing
thresholds: the loader accepts it. -/
def cexWeightsData : RawWeightsData :=
  { domains := some [("port",
      { weights := some [2, 3],
        thresholds := some ⟨some 5, some 4, some 3, some 2⟩ })]
    defaultEntry := some { weights := some [1, 1], thresholds := none }
    version := some "1.0"
    embedding_dimensions := some 2 }

/-- C8 (counterexample): configuration load does NOT require strictly
increasing thresholds — `_validate_weights` accepts a configuration whose
only domain has its four thresholds in strictly decreasing order. -/
theorem C8_counterexample_thresholds_not_validated :
    validate_weights cexWeightsData = .ok () ∧
    ¬ (∀ p ∈ cexWeightsData.domains.getD [], ∃ a b c dd : ℚ,
        p.2.thresholds = some ⟨some a, some b, some c, some dd⟩ ∧
        a < b ∧ b < c ∧ c < dd) := by
  constructor
  · rfl
  · intro h
    obtain ⟨a, b, c, dd, ht, hab, hbc, hcd⟩ :=
      h ("port", ⟨some [2, 3], some ⟨some 5, some 4, some 3, some 2⟩⟩)
        (by simp [cexWeightsData])
    simp only [Option.some.injEq, ThresholdsQ.mk.injEq] at ht
    obtain ⟨ha, hb, _, _⟩ := ht
    rw [← ha, ← hb] at hab
    linarith

/-! ## The scaler's hidden state (claim C7) -/

theorem listMin_zero_one : listMin [(0:ℝ), 1] = 0 := by
  show min (0:ℝ) 1 = 0
  exact min_eq_left (by norm_num)

theorem listMax_zero_one : listMax [(0:ℝ), 1] = 1 := by
  show max (0:ℝ) 1 = 1
  exact max_eq_right (by norm_num)

/-- The `min_max_range` of domain `farm` after an adaptive batch over
`[0, 1]` (10% padding on each side, floored at `0`). -/
theorem adaptive_params_zero_one :
    (⟨max 0 ((0:ℝ) - (1 - 0) * (1/10)), 1 + (1 - 0) * (1/10)⟩ : CustomParams)
      = ⟨0, 11/10⟩ := by
  have h : max (0:ℝ) (0 - (1 - 0) * (1/10)) = 0 := max_eq_left (by norm_num)
  rw [h]
  norm_num

/-- After `batch_scale([0,1], 'farm', adaptive=True)` on a fresh min-max
scaler, the stored `farm` parameters have been overwritten with the
adaptive range `(0, 1.1)`. -/
theorem batch_scale_adaptive_final_state :
    ((MagnitudeScaler.init .MIN_MAX).batch_scale [0, 1] "farm" true).2 =
    ⟨.MIN_MAX, setAssoc (setAssoc initialDomainParams "farm"
        ⟨10, 3/25, 0, 11/10, 4⟩) "farm" ⟨10, 3/25, 0, 11/10, 4⟩⟩ := by
  have h1 : (MagnitudeScaler.init .MIN_MAX).batch_scale [0, 1] "farm" true =
      scaleAll (MagnitudeScaler.init .MIN_MAX) [0, 1] "farm"
        (some ⟨max 0 (listMin [(0:ℝ), 1] -
            (listMax [(0:ℝ), 1] - listMin [(0:ℝ), 1]) * (1/10)),
          listMax [(0:ℝ), 1] +
            (listMax [(0:ℝ), 1] - listMin [(0:ℝ), 1]) * (1/10)⟩) := by
    simp only [MagnitudeScaler.batch_scale]
    rw [if_neg (by simp), if_pos ⟨trivial, rfl⟩]
  rw [h1, listMin_zero_one, listMax_zero_one, adaptive_params_zero_one]
  have e1 : ((MagnitudeScaler.init .MIN_MAX).scale 0 "farm"
      (some ⟨0, 11/10⟩)).2 =
      ⟨.MIN_MAX, setAssoc initialDomainParams "farm"
        ⟨10, 3/25, 0, 11/10, 4⟩⟩ := rfl
  have e2 : ((⟨.MIN_MAX, setAssoc initialDomainParams "farm"
        ⟨10, 3/25, 0, 11/10, 4⟩⟩ : MagnitudeScaler).scale 1 "farm"
      (some ⟨0, 11/10⟩)).2 =
      ⟨.MIN_MAX, setAssoc (setAssoc initialDomainParams "farm"
        ⟨10, 3/25, 0, 11/10, 4⟩) "farm" ⟨10, 3/25, 0, 11/10, 4⟩⟩ := rfl
  simp only [scaleAll]
  rw [e1, e2]

/-- C7: The scaler is NOT stateless.  A fresh min-max scaler maps `0.1` in
domain `farm` to `0.4` (static range `(0, 0.25)`), but after a preceding
adaptive `batch_scale([0,1], 'farm')` — which mutates the stored
`min_max_range` to `(0, 1.1)` via `params.update(custom_params)` — the
same `scale(0.1, 'farm')` call returns `1/11 ≈ 0.0909`. -/
theorem C7_adaptive_batch_scale_mutates_state :
    ((MagnitudeScaler.init .MIN_MAX).scale (1/10) "farm" none).1 = 2/5 ∧
    (((MagnitudeScaler.init .MIN_MAX).batch_scale [0, 1] "farm" true).2.scale
        (1/10) "farm" none).1 = 1/11 ∧
    ((2:ℝ)/5 ≠ 1/11) := by
  refine ⟨?_, ?_, by norm_num⟩
  · show minMaxScale ⟨10, 3/25, 0, 1/4, 4⟩ (1/10) = 2/5
    unfold minMaxScale
    rw [if_neg (by norm_num),
      show ((1:ℝ)/10 - 0) / ((1:ℝ)/4 - 0) = 2/5 by norm_num,
      min_eq_right (by norm_num), max_eq_right (by norm_num)]
  · rw [batch_scale_adaptive_final_state]
    show minMaxScale ⟨10, 3/25, 0, 11/10, 4⟩ (1/10) = 1/11
    unfold minMaxScale
    rw [if_neg (by norm_num),
      show ((1:ℝ)/10 - 0) / ((11:ℝ)/10 - 0) = 1/11 by norm_num,
      min_eq_right (by norm_num), max_eq_right (by norm_num)]

/-! ## Contextual scoring: claim C6 -/

/-- Modelled from the spec's words, for comparison with the code (claim
C6): the contextual amplification computed with the SAMPLE standard
deviation (squared deviations divided by `n - 1`), which is what the spec
asserts the code uses. -/
noncomputable def contextualScoreClaimed (cfg : ScorerConfig) (current : ℚ)
    (hist : List ℚ) (domain : Option String) : ℝ :=
  let base := (calculate_anomaly_score cfg current domain none).anomaly_score
  match hist with
  | [] => (base : ℝ)
  | _ :: _ =>
    let mean : ℚ := hist.sum / hist.length
    let svar : ℚ :=
      (hist.map (fun x => (x - mean) ^ 2)).sum / ((hist.length : ℚ) - 1)
    let sstd : ℝ := Real.sqrt (svar : ℝ)
    let z : ℝ := if 0 < sstd then ((current : ℝ) - (mean : ℝ)) / sstd else 0
    if 2 < |z| then min 1 ((base : ℝ) * (1 + (|z| - 2) * (1/10)))
    else (base : ℝ)

/-- C6 (amended): with a non-empty history, the contextual score equals the
basic anomaly score amplified by `1 + (|z|-2)*0.1` (capped at `1.0`) when
`|z| > 2` and left unchanged otherwise, where `z` is the z-score of the
current magnitude computed with the POPULATION standard deviation (squared
deviations divided by `n`), and `z = 0` for a zero-variance history. -/
theorem C6_amended_contextual_amplification (cfg : ScorerConfig)
    (current : ℚ) (hist : List ℚ) (domain : Option String) (h : hist ≠ []) :
    (calculate_contextual_anomaly_score cfg current hist domain).anomaly_score
      =
      (let base := (calculate_anomaly_score cfg current domain none).anomaly_score
       let mean : ℚ := hist.sum / hist.length
       let std : ℝ := Real.sqrt
         (((hist.map (fun x => (x - mean) ^ 2)).sum / (hist.length : ℚ) : ℚ))
       let z : ℝ := if 0 < std then ((current : ℝ) - (mean : ℝ)) / std else 0
       if 2 < |z| then min 1 ((base : ℝ) * (1 + (|z| - 2) * (1/10)))
       else (base : ℝ)) := by
  cases hist with
  | nil => exact absurd rfl h
  | cons a t => rfl

theorem C6_amended_contextual_amplification_witness :
    ([(1:ℚ)/20, 1/20, 1/10] ≠ []) ∧
    ((calculate_contextual_anomaly_score sampleConfig (1/5)
        [1/20, 1/20, 1/10] (some "port")).anomaly_score =
      (let base := (calculate_anomaly_score sampleConfig (1/5) (some "port")
        none).anomaly_score
       let mean : ℚ := [(1:ℚ)/20, 1/20, 1/10].sum / ([(1:ℚ)/20, 1/20, 1/10] : List ℚ).length
       let std : ℝ := Real.sqrt
         ((([(1:ℚ)/20, 1/20, 1/10].map (fun x => (x - mean) ^ 2)).sum /
           (([(1:ℚ)/20, 1/20, 1/10] : List ℚ).length : ℚ) : ℚ))
       let z : ℝ := if 0 < std then (((1/5 : ℚ) : ℝ) - (mean : ℝ)) / std else 0
       if 2 < |z| then min 1 ((base : ℝ) * (1 + (|z| - 2) * (1/10)))
       else (base : ℝ))) :=
  ⟨by simp, C6_amended_contextual_amplification sampleConfig (1/5)
    [1/20, 1/20, 1/10] (some "port") (by simp)⟩

/-- The basic anomaly score of magnitude `0.22` in the default domain of
`sampleConfig` is exactly `0.22`. -/
theorem base_score_at_default :
    (calculate_anomaly_score sampleConfig (11/50) none none).anomaly_score
      = 11/50 := by
  show roundDec 4 (min 1 (11/50 * 1 * 1)) = 11/50
  rw [show min (1:ℚ) (11/50 * 1 * 1) = 11/50 by
    rw [show (11:ℚ)/50 * 1 * 1 = 11/50 by ring]
    exact min_eq_right (by norm_num)]
  norm_num [roundDec, roundHalfEven, Int.fract]

/-- C6 (counterexample): the claim says contextual scoring uses the SAMPLE
standard deviation.  For history `[0.1, 0.1, 0.1, 0.2]` and current
magnitude `0.22`, the population z-score (which the code computes, dividing
by `n`) exceeds `2` while the sample z-score is `1.9`, so the code
amplifies the score where the claim says it must stay unchanged. -/
theorem C6_counterexample_sample_std :
    (calculate_contextual_anomaly_score sampleConfig (11/50)
        [1/10, 1/10, 1/10, 1/5] none).anomaly_score ≠
    contextualScoreClaimed sampleConfig (11/50) [1/10, 1/10, 1/10, 1/5]
      none := by
  simp only [calculate_contextual_anomaly_score, contextualScoreClaimed]
  rw [base_score_at_default]
  norm_num
  have h400 : Real.sqrt 400 = 20 := by
    rw [show (400:ℝ) = 20^2 by norm_num]
    exact Real.sqrt_sq (by norm_num)
  have h1600 : Real.sqrt 1600 = 40 := by
    rw [show (1600:ℝ) = 40^2 by norm_num]
    exact Real.sqrt_sq (by norm_num)
  rw [h400, h1600, show (19:ℝ)/200 * 20 = 19/10 by norm_num]
  have hs3 : (0:ℝ) < Real.sqrt 3 := Real.sqrt_pos.mpr (by norm_num)
  have hzpos : (0:ℝ) < 19/200/(Real.sqrt 3/40) := by positivity
  rw [abs_of_pos hzpos, abs_of_pos (by norm_num : (0:ℝ) < 19/10)]
  have hz : 2 < (19:ℝ)/200/(Real.sqrt 3/40) := by
    have hlt3 : Real.sqrt 3 < 19/10 := by
      rw [Real.sqrt_lt' (by norm_num)]
      norm_num
    rw [lt_div_iff₀ (by positivity)]
    nlinarith
  rw [if_pos hz, if_neg (by norm_num : ¬ (2:ℝ) < 19/10)]
  have hfac : (11:ℝ)/50 <
      11/50 * (1 + ((19:ℝ)/200/(Real.sqrt 3/40) - 2) * (1/10)) := by
    nlinarith
  exact ne_of_gt (lt_min (by norm_num) hfac)
